import Mathlib

/-!
# Verification of the friend_reader repository

Shallow embedding of the server (`src/server/src/main.rs`), the shared data
model (`src/shared/src/lib.rs`), and the client reader loop
(`src/client/src/main.rs`), together with theorems settling the spec claims.

Conventions of the embedding:
* Rust `f32` quantities (layout coordinates, heights, spacing) are embedded as
  `ℚ`; the code performs only comparisons, additions, `max`/`min`, `abs` and
  `signum` on them, all of which are exact here.
* `std::time::Instant` values are embedded as `ℕ` time stamps; a Rust
  `Duration` produced by `now.duration_since(earlier)` (which saturates at
  zero) is `now - earlier` in truncated `ℕ` subtraction.  Server durations are
  compared in seconds, client durations in milliseconds, exactly as in the
  source.
* The server registry `HashMap<String, UserData>` is embedded as the key-value
  map `String → Option UserData`; `HashMap::insert` is pointwise replacement
  and `HashMap::retain` is a pointwise filter.
-/

/-- `shared::Position` (src/shared/src/lib.rs lines 28-34). -/
structure Position where
  start_element : Nat
  start_percent : ℚ
  end_element : Nat
  end_percent : ℚ
  deriving Repr, DecidableEq

/-- `shared::ConnectedUser` (src/shared/src/lib.rs lines 36-41). -/
structure ConnectedUser where
  name : String
  color : String
  position : Position
  deriving Repr, DecidableEq

/-- `shared::PositionUpdate` (src/shared/src/lib.rs lines 43-49): the body of
POST `/update_position`. -/
structure PositionUpdate where
  name : String
  color : String
  position : Position
  password_hash : Option String
  deriving Repr, DecidableEq

/-- `server::UserData` (src/server/src/main.rs lines 32-35): a connected user
together with the instant of their last heartbeat. -/
structure UserData where
  user : ConnectedUser
  last_heartbeat : Nat
  deriving Repr, DecidableEq

/-- The server registry `HashMap<String, UserData>` as a key-value map. -/
def Registry : Type := String → Option UserData

/-- `server::ServerState` (src/server/src/main.rs lines 24-30), without the
image table (no claim touches it).  `document` is the element list of the
loaded `Document`. -/
structure ServerState where
  document : List String
  users : Registry
  password_hash : Option String

/-- HTTP status outcomes used by the handlers. -/
inductive StatusCode where
  | ok
  | unauthorized
  | notFound
  deriving Repr, DecidableEq

/-- `check_auth` (src/server/src/main.rs lines 211-217): the three-way match
on (configured server hash, caller-supplied hash). -/
def check_auth (state_hash : Option String) (provided_hash : Option String) : Bool :=
  match state_hash, provided_hash with
  | none, _ => true
  | some expected, some provided => expected == provided
  | some _, none => false

/-- The registry after `users.insert(user_key, UserData { user, last_heartbeat })`
performed by `update_position_handler` (src/server/src/main.rs lines 193-206):
pointwise replacement at `update.name`. -/
def insertUser (users : Registry) (update : PositionUpdate) (now : Nat) : Registry :=
  fun k =>
    if k = update.name then
      some { user := { name := update.name, color := update.color,
                       position := update.position },
             last_heartbeat := now }
    else users k

/-- `update_position_handler` (src/server/src/main.rs lines 184-209): check the
auth gate, then insert/replace the caller's record stamped with the current
instant.  Returns the response status together with the registry afterwards. -/
def update_position_handler (state : ServerState) (update : PositionUpdate)
    (now : Nat) : StatusCode × Registry :=
  if check_auth state.password_hash update.password_hash then
    (StatusCode.ok, insertUser state.users update now)
  else
    (StatusCode.unauthorized, state.users)

/-- The snapshot built by `positions_handler` (src/server/src/main.rs lines
175-181): `users.iter().map(|(key, data)| (key, data.user))`. -/
def snapshotUsers (users : Registry) : String → Option ConnectedUser :=
  fun k => (users k).map (fun d => d.user)

/-- `positions_handler` (src/server/src/main.rs lines 166-182): gated read of
the user snapshot. -/
def positions_handler (state : ServerState) (provided_hash : Option String) :
    Except StatusCode (String → Option ConnectedUser) :=
  if check_auth state.password_hash provided_hash then
    Except.ok (snapshotUsers state.users)
  else
    Except.error StatusCode.unauthorized

/-- `document_handler` (src/server/src/main.rs lines 123-132): gated read of
the document. -/
def document_handler (state : ServerState) (provided_hash : Option String) :
    Except StatusCode (List String) :=
  if check_auth state.password_hash provided_hash then
    Except.ok state.document
  else
    Except.error StatusCode.unauthorized

/-- One sweep of `heartbeat_cleanup` (src/server/src/main.rs lines 224-234):
`users.retain(|_, data| !(now.duration_since(data.last_heartbeat) > 10s))`,
as a pointwise filter on the registry. -/
def sweepRegistry (now : Nat) (users : Registry) : Registry :=
  fun k => (users k).filter (fun d => !(decide (now - d.last_heartbeat > 10)))

/-- A registry-affecting event: an authorized position update for a key
(stamping `last_heartbeat` to the event's instant, per
`update_position_handler`), or one sweep of `heartbeat_cleanup`. -/
inductive RegistryEvent where
  | refresh (update : PositionUpdate) (t : Nat)
  | sweep (t : Nat)

/-- Effect of one event on the registry. -/
def stepRegistry (users : Registry) : RegistryEvent → Registry
  | RegistryEvent.refresh update t => insertUser users update t
  | RegistryEvent.sweep t => sweepRegistry t users

/-- Effect of a sequence of events on the registry. -/
def runRegistry (users : Registry) (events : List RegistryEvent) : Registry :=
  events.foldl stepRegistry users

/-- "Refreshed within every 10-second window", relative to key `k`, for a
record whose current heartbeat stamp is `hb`: every sweep in the event list
happens at most 10 seconds after the latest refresh of `k` preceding it. -/
def keptFresh (k : String) (hb : Nat) : List RegistryEvent → Bool
  | [] => true
  | RegistryEvent.sweep t :: rest => decide (t - hb ≤ 10) && keptFresh k hb rest
  | RegistryEvent.refresh update t :: rest =>
      if update.name = k then keptFresh k t rest else keptFresh k hb rest

/-- `shared::DocumentElement` (src/shared/src/lib.rs lines 17-26). -/
inductive DocumentElement where
  | text (content : String)
  | heading (content : String) (level : Nat)
  | image (id : String) (url : String)
  deriving Repr, DecidableEq

/-- `client::LaidOutElement` (src/client/src/main.rs lines 88-93). -/
structure LaidOutElement where
  text : String
  y_position : ℚ
  height : ℚ
  deriving Repr, DecidableEq

/-- The display text derived in the layout pass (src/client/src/main.rs lines
381-389): headings get a `[HEADING LEVEL n]` prefix, images a `[IMAGE: id]`
placeholder, text is passed through. -/
def displayText : DocumentElement → String
  | DocumentElement.text content => content
  | DocumentElement.heading content level =>
      "[HEADING LEVEL " ++ toString level ++ "] " ++ content
  | DocumentElement.image id _ => "[IMAGE: " ++ id ++ "]"

/-- The `is_heading` flag of the same match (src/client/src/main.rs lines
381-389): true exactly for `Heading` variants. -/
def elemIsHeading : DocumentElement → Bool
  | DocumentElement.heading _ _ => true
  | _ => false

/-- The text-measurement capability `ctx.fonts(|fonts| fonts.layout_job(job))`
(src/client/src/main.rs line 404): given the wrap width, the font family, the
font size and the text, it yields the measured text height `galley.size().y`.
The layout engine is parametric in it. -/
def MeasureText : Type := ℚ → String → ℚ → String → ℚ

/-- Inter-element spacing chosen in the layout pass (src/client/src/main.rs
lines 407-411): doubled paragraph spacing after a heading, plain paragraph
spacing otherwise. -/
def spacingOf (paragraphSpacing : ℚ) (e : DocumentElement) : ℚ :=
  if elemIsHeading e then paragraphSpacing * 2 else paragraphSpacing

/-- The layout loop body (src/client/src/main.rs lines 375-420) starting from
vertical cursor `current_y`: emit one `LaidOutElement` per `DocumentElement`,
then advance the cursor by the measured height plus the spacing. -/
def layoutFrom (measure : MeasureText) (width : ℚ) (font : String) (size : ℚ)
    (paragraphSpacing : ℚ) : List DocumentElement → ℚ → List LaidOutElement
  | [], _ => []
  | e :: rest, current_y =>
      let text := displayText e
      let text_height := measure width font size text
      { text := text, y_position := current_y, height := text_height } ::
        layoutFrom measure width font size paragraphSpacing rest
          (current_y + text_height + spacingOf paragraphSpacing e)

/-- The full layout pass (src/client/src/main.rs lines 375-422): the loop is
entered with `current_y = 0.0`. -/
def layout (measure : MeasureText) (width : ℚ) (font : String) (size : ℚ)
    (paragraphSpacing : ℚ) (elements : List DocumentElement) :
    List LaidOutElement :=
  layoutFrom measure width font size paragraphSpacing elements 0

/-- Anchor capture (src/client/src/main.rs lines 352-361 and 367-371):
`laid_out_elements.iter().position(|e| e.y_position + e.height > center_y)`. -/
def captureAnchor (elements : List LaidOutElement) (center_y : ℚ) : Option Nat :=
  elements.findIdx? (fun e => center_y < e.y_position + e.height)

/-- Anchor restore (src/client/src/main.rs lines 424-430): an in-bounds anchor
index repositions the scroll offset to
`(anchor_y - viewport_height / 2).max(0.0)`; an out-of-bounds index leaves the
scroll offset unchanged. -/
def restoreScroll (newLayout : List LaidOutElement) (anchor : Option Nat)
    (viewport_height : ℚ) (scroll_offset : ℚ) : ℚ :=
  match anchor with
  | none => scroll_offset
  | some anchor_idx =>
      match newLayout[anchor_idx]? with
      | some e => max (e.y_position - viewport_height / 2) 0
      | none => scroll_offset

/-- The sync-relevant fields of `client::ReaderState` (src/client/src/main.rs
lines 55-83): the debounce state of the position push and the cached peer
snapshot of the pull. -/
structure SyncState where
  last_sent_position : Option (Nat × Nat)
  last_position_update : Option Nat
  other_users : String → Option ConnectedUser
  last_users_fetch : Option Nat

/-- `position_changed` (src/client/src/main.rs line 449):
`last_sent_position.map(|last| last != current_position).unwrap_or(true)`. -/
def position_changed (s : SyncState) (current_position : Nat × Nat) : Bool :=
  match s.last_sent_position with
  | some last => last ≠ current_position
  | none => true

/-- `time_elapsed` (src/client/src/main.rs line 450):
`last_position_update.map(|t| t.elapsed().as_millis() >= 250).unwrap_or(true)`. -/
def time_elapsed (s : SyncState) (now : Nat) : Bool :=
  match s.last_position_update with
  | some t => 250 ≤ now - t
  | none => true

/-- The push condition (src/client/src/main.rs line 452):
`position_changed || time_elapsed`. -/
def shouldPush (s : SyncState) (current_position : Nat × Nat) (now : Nat) : Bool :=
  position_changed s current_position || time_elapsed s now

/-- `should_fetch_users` (src/client/src/main.rs line 486):
`last_users_fetch.map(|t| t.elapsed().as_millis() >= 250).unwrap_or(true)`. -/
def should_fetch_users (s : SyncState) (now : Nat) : Bool :=
  match s.last_users_fetch with
  | some t => 250 ≤ now - t
  | none => true

/-- The push block of a tick (src/client/src/main.rs lines 452-484): when the
condition holds the update is sent (its network result is discarded) and both
`last_position_update` and `last_sent_position` are stamped. -/
def pushStep (s : SyncState) (current_position : Nat × Nat) (now : Nat) :
    SyncState :=
  if shouldPush s current_position now then
    { s with last_position_update := some now,
             last_sent_position := some current_position }
  else s

/-- The pull block of a tick (src/client/src/main.rs lines 486-505): when the
fetch cadence fires, a successful fetch replaces the cached peer map and
stamps `last_users_fetch`; a failed fetch (`Err`) changes nothing.  `result`
is the outcome of the `/positions` round trip. -/
def pullStep (s : SyncState) (now : Nat)
    (result : Except Unit (String → Option ConnectedUser)) : SyncState :=
  if should_fetch_users s now then
    match result with
    | Except.ok users =>
        { s with other_users := users, last_users_fetch := some now }
    | Except.error _ => s
  else s

/-- One sync tick (src/client/src/main.rs lines 437-505): the push block runs
first, then the pull block. -/
def syncTick (s : SyncState) (current_position : Nat × Nat) (now : Nat)
    (pullResult : Except Unit (String → Option ConnectedUser)) : SyncState :=
  pullStep (pushStep s current_position now) now pullResult

/-- `f32::signum` as used on `target_scroll - current_scroll`
(src/client/src/main.rs line 520): 1 for non-negative values, -1 for negative
ones (Rust's `signum` maps +0.0 to 1.0). -/
def fsignum (x : ℚ) : ℚ :=
  if x < 0 then -1 else 1

/-- One follow-mode scroll step (src/client/src/main.rs lines 512-522), given
the y-position of the followed peer's start element and the current scroll
offset: snap when more than 2000 units away, else move by
`signum(target - current) * min(speed, distance)` with `speed = 50` beyond 500
units and `20` within. -/
def followStep (target_scroll : ℚ) (current_scroll : ℚ) : ℚ :=
  let distance := |target_scroll - current_scroll|
  if distance > 2000 then
    target_scroll
  else
    let speed : ℚ := if distance > 500 then 50 else 20
    let delta := fsignum (target_scroll - current_scroll) * min speed distance
    current_scroll + delta

/-- The whole follow block of a frame (src/client/src/main.rs lines 509-527):
a follow step runs only when a peer is followed, present in the cached peer
map, and its `start_element` resolves in the current layout; otherwise the
scroll offset is untouched. -/
def followFrame (laid_out_elements : List LaidOutElement)
    (other_users : String → Option ConnectedUser)
    (following_user : Option String) (scroll_offset : ℚ) : ℚ :=
  match following_user with
  | none => scroll_offset
  | some following =>
      match other_users following with
      | none => scroll_offset
      | some followed_user =>
          match laid_out_elements[followed_user.position.start_element]? with
          | none => scroll_offset
          | some mid_element => followStep mid_element.y_position scroll_offset

/-- An outgoing client HTTP GET request: its path and the `password_hash`
query parameter it carries, if any. -/
structure GetRequest where
  path : String
  password_hash : Option String
  deriving Repr, DecidableEq

/-- The connection-time `/health` GET (src/client/src/main.rs lines 132-135):
built as `client.get(format!("{}/health", server_url)).send()` with no query
parameters attached. -/
def clientHealthRequest : GetRequest :=
  { path := "/health", password_hash := none }

/-- The connection-time `/document` GET (src/client/src/main.rs lines
141-144): built as `client.get(format!("{}/document", server_url)).send()`
with no query parameters attached, whatever hash the login computed. -/
def clientDocumentRequest (login_password_hash : Option String) : GetRequest :=
  { path := "/document", password_hash := none }

/-- The periodic `/positions` GET of the pull block (src/client/src/main.rs
lines 490-495): built as `client.get(format!("{}/positions", server_url))`
with no query parameters attached, whatever hash the reader state holds. -/
def clientPositionsRequest (reader_password_hash : Option String) : GetRequest :=
  { path := "/positions", password_hash := none }

/-- The body of the `/update_position` POST (src/client/src/main.rs lines
458-470): this is the one client request that carries the stored
`password_hash`. -/
def clientPositionUpdate (user_name : String) (user_color : String)
    (reader_password_hash : Option String) (current_element_idx : Nat)
    (end_element_idx : Nat) : PositionUpdate :=
  { name := user_name, color := user_color,
    position := { start_element := current_element_idx, start_percent := 0,
                  end_element := end_element_idx, end_percent := 1 },
    password_hash := reader_password_hash }

/-! ## Helper lemmas -/

theorem insertUser_self (users : Registry) (update : PositionUpdate) (now : Nat) :
    insertUser users update now update.name =
      some { user := { name := update.name, color := update.color,
                       position := update.position },
             last_heartbeat := now } := by
  simp [insertUser]

theorem insertUser_other (users : Registry) (update : PositionUpdate) (now : Nat)
    (k : String) (hk : k ≠ update.name) :
    insertUser users update now k = users k := by
  simp [insertUser, hk]

theorem sweepRegistry_keep (users : Registry) (now : Nat) (k : String)
    (d : UserData) (hd : users k = some d) (hfresh : now - d.last_heartbeat ≤ 10) :
    sweepRegistry now users k = some d := by
  simp [sweepRegistry, hd, Option.filter]
  omega

theorem sweepRegistry_drop (users : Registry) (now : Nat) (k : String)
    (d : UserData) (hd : users k = some d) (hstale : now - d.last_heartbeat > 10) :
    sweepRegistry now users k = none := by
  simp [sweepRegistry, hd, Option.filter]
  omega

theorem runRegistry_cons (users : Registry) (e : RegistryEvent)
    (rest : List RegistryEvent) :
    runRegistry users (e :: rest) = runRegistry (stepRegistry users e) rest := rfl

theorem runRegistry_survives (es : List RegistryEvent) :
    ∀ (users : Registry) (k : String) (d : UserData),
      users k = some d → keptFresh k d.last_heartbeat es = true →
      ∃ d', runRegistry users es k = some d' := by
  induction es with
  | nil => exact fun users k d hd _ => ⟨d, hd⟩
  | cons e rest ih =>
      intro users k d hd hkept
      cases e with
      | sweep t =>
          rw [keptFresh, Bool.and_eq_true, decide_eq_true_eq] at hkept
          rw [runRegistry_cons]
          exact ih (stepRegistry users (RegistryEvent.sweep t)) k d
            (sweepRegistry_keep users t k d hd hkept.1) hkept.2
      | refresh update t =>
          rw [keptFresh] at hkept
          rw [runRegistry_cons]
          by_cases hn : update.name = k
          · rw [if_pos hn] at hkept
            refine ih (stepRegistry users (RegistryEvent.refresh update t)) k
              { user := { name := update.name, color := update.color,
                          position := update.position },
                last_heartbeat := t } ?_ hkept
            show insertUser users update t k = _
            rw [← hn]
            exact insertUser_self users update t
          · rw [if_neg hn] at hkept
            refine ih (stepRegistry users (RegistryEvent.refresh update t)) k d
              ?_ hkept
            show insertUser users update t k = some d
            rw [insertUser_other users update t k (fun h => hn h.symm)]
            exact hd

/-! ## Claim theorems -/

/-- C1: for every configured server secret and every caller-supplied hash,
`check_auth` admits a gated request exactly as specified: no configured hash
⇒ every request passes; a configured hash ⇒ a request passes iff the caller
supplies exactly that hash, and a missing or mismatched hash is rejected with
an unauthorized status before the store is touched (registry returned
unchanged). -/
theorem auth_gate_spec (document : List String) (users : Registry)
    (update : PositionUpdate) (now : Nat) (h : String) :
    (∀ provided, check_auth none provided = true) ∧
    (∀ provided, check_auth (some h) provided = true ↔ provided = some h) ∧
    (check_auth (some h) update.password_hash = false →
      update_position_handler ⟨document, users, some h⟩ update now =
        (StatusCode.unauthorized, users) ∧
      positions_handler ⟨document, users, some h⟩ update.password_hash =
        Except.error StatusCode.unauthorized) := by
  refine ⟨fun provided => by cases provided <;> rfl, fun provided => ?_, fun hfail => ?_⟩
  · cases provided with
    | none => simp [check_auth]
    | some p =>
        simp only [check_auth, beq_iff_eq, Option.some.injEq]
        exact ⟨fun hp => hp.symm, fun hp => hp.symm⟩
  · constructor
    · simp [update_position_handler, hfail]
    · simp [positions_handler, hfail]

/-- C1 witness: concrete instances of the gate — open server admits a request,
a configured secret admits exactly the matching hash, and a missing hash is
rejected with the registry untouched. -/
theorem auth_gate_spec_witness :
    check_auth none (some "deadbeef") = true ∧
    (check_auth (some "cafe") (some "cafe") = true ↔ some "cafe" = some "cafe") ∧
    (update_position_handler
        ⟨["a"], (fun _ => none), some "cafe"⟩
        { name := "alice", color := "#ff0000",
          position := { start_element := 0, start_percent := 0,
                        end_element := 0, end_percent := 1 },
          password_hash := none } 3 =
      (StatusCode.unauthorized, (fun _ => none))) := by
  have h := auth_gate_spec ["a"] (fun _ => none)
    { name := "alice", color := "#ff0000",
      position := { start_element := 0, start_percent := 0,
                    end_element := 0, end_percent := 1 },
      password_hash := none } 3 "cafe"
  exact ⟨h.1 (some "deadbeef"), h.2.1 (some "cafe"), (h.2.2 (by decide)).1⟩

/-- C9: an authorized position update for identity `update.name` inserts or
fully replaces that identity's record with the supplied user data and
`last_heartbeat` stamped to the current instant, returns OK, and leaves the
record of every other identity unchanged. -/
theorem upsert_spec (state : ServerState) (update : PositionUpdate) (now : Nat)
    (k : String)
    (hauth : check_auth state.password_hash update.password_hash = true) :
    (update_position_handler state update now).1 = StatusCode.ok ∧
    (update_position_handler state update now).2 update.name =
      some { user := { name := update.name, color := update.color,
                       position := update.position },
             last_heartbeat := now } ∧
    (k ≠ update.name →
      (update_position_handler state update now).2 k = state.users k) := by
  refine ⟨?_, ?_, fun hk => ?_⟩
  · simp [update_position_handler, hauth]
  · simp only [update_position_handler, hauth, if_true]
    exact insertUser_self state.users update now
  · simp only [update_position_handler, hauth, if_true]
    exact insertUser_other state.users update now k hk

/-- C9 witness: on a concrete registry holding records for "alice" and "bob",
an authorized update from "alice" replaces her record with the new data
stamped at time 7 and leaves "bob"'s record intact. -/
theorem upsert_spec_witness :
    (update_position_handler
        ⟨[], (fun k => if k = "bob" then
                some { user := { name := "bob", color := "#00ff00",
                                 position := { start_element := 4, start_percent := 0,
                                               end_element := 5, end_percent := 1 } },
                       last_heartbeat := 2 }
              else none), none⟩
        { name := "alice", color := "#ff0000",
          position := { start_element := 1, start_percent := 0,
                        end_element := 2, end_percent := 1 },
          password_hash := none } 7).1 = StatusCode.ok ∧
    (update_position_handler
        ⟨[], (fun k => if k = "bob" then
                some { user := { name := "bob", color := "#00ff00",
                                 position := { start_element := 4, start_percent := 0,
                                               end_element := 5, end_percent := 1 } },
                       last_heartbeat := 2 }
              else none), none⟩
        { name := "alice", color := "#ff0000",
          position := { start_element := 1, start_percent := 0,
                        end_element := 2, end_percent := 1 },
          password_hash := none } 7).2 "alice" =
      some { user := { name := "alice", color := "#ff0000",
                       position := { start_element := 1, start_percent := 0,
                                     end_element := 2, end_percent := 1 } },
             last_heartbeat := 7 } ∧
    (update_position_handler
        ⟨[], (fun k => if k = "bob" then
                some { user := { name := "bob", color := "#00ff00",
                                 position := { start_element := 4, start_percent := 0,
                                               end_element := 5, end_percent := 1 } },
                       last_heartbeat := 2 }
              else none), none⟩
        { name := "alice", color := "#ff0000",
          position := { start_element := 1, start_percent := 0,
                        end_element := 2, end_percent := 1 },
          password_hash := none } 7).2 "bob" =
      some { user := { name := "bob", color := "#00ff00",
                       position := { start_element := 4, start_percent := 0,
                                     end_element := 5, end_percent := 1 } },
             last_heartbeat := 2 } := by
  have h := upsert_spec
    ⟨[], (fun k => if k = "bob" then
            some { user := { name := "bob", color := "#00ff00",
                             position := { start_element := 4, start_percent := 0,
                                           end_element := 5, end_percent := 1 } },
                   last_heartbeat := 2 }
          else none), none⟩
    { name := "alice", color := "#ff0000",
      position := { start_element := 1, start_percent := 0,
                    end_element := 2, end_percent := 1 },
      password_hash := none } 7 "bob" (by decide)
  exact ⟨h.1, h.2.1, h.2.2 (by decide)⟩

/-- C10: an unauthorized position update returns a rejection status with the
registry completely unchanged; an authorized one is stored exactly as supplied
for any position values — the handler never reads the document, so element
indices are not validated against the document length and out-of-range values
are accepted and recorded. -/
theorem update_position_error_spec (document : List String) (users : Registry)
    (secret : Option String) (update : PositionUpdate) (now : Nat) :
    (check_auth secret update.password_hash = false →
      update_position_handler ⟨document, users, secret⟩ update now =
        (StatusCode.unauthorized, users)) ∧
    (check_auth secret update.password_hash = true →
      (update_position_handler ⟨document, users, secret⟩ update now).1 =
        StatusCode.ok ∧
      (update_position_handler ⟨document, users, secret⟩ update now).2
          update.name =
        some { user := { name := update.name, color := update.color,
                         position := update.position },
               last_heartbeat := now }) ∧
    (∀ document' : List String,
      update_position_handler ⟨document, users, secret⟩ update now =
        update_position_handler ⟨document', users, secret⟩ update now) := by
  refine ⟨fun hfail => ?_, fun hok => ⟨?_, ?_⟩, fun document' => ?_⟩
  · simp [update_position_handler, hfail]
  · simp [update_position_handler, hok]
  · simp only [update_position_handler, hok, if_true]
    exact insertUser_self users update now
  · simp [update_position_handler]

/-- C10 witness: against a document of length 1, a rejected update (wrong
hash) leaves the registry's record for "alice" absent, while an authorized
update with out-of-range indices (start 999, end 1000) is accepted and
recorded as-is. -/
theorem update_position_error_spec_witness :
    (update_position_handler
        ⟨["only"], (fun _ => none), some "cafe"⟩
        { name := "alice", color := "#ff0000",
          position := { start_element := 999, start_percent := 0,
                        end_element := 1000, end_percent := 1 },
          password_hash := some "wrong" } 9 =
      (StatusCode.unauthorized, (fun _ => none))) ∧
    (update_position_handler
        ⟨["only"], (fun _ => none), none⟩
        { name := "alice", color := "#ff0000",
          position := { start_element := 999, start_percent := 0,
                        end_element := 1000, end_percent := 1 },
          password_hash := none } 9).2 "alice" =
      some { user := { name := "alice", color := "#ff0000",
                       position := { start_element := 999, start_percent := 0,
                                     end_element := 1000, end_percent := 1 } },
             last_heartbeat := 9 } := by
  refine ⟨(update_position_error_spec ["only"] (fun _ => none) (some "cafe")
    { name := "alice", color := "#ff0000",
      position := { start_element := 999, start_percent := 0,
                    end_element := 1000, end_percent := 1 },
      password_hash := some "wrong" } 9).1 (by decide), ?_⟩
  exact ((update_position_error_spec ["only"] (fun _ => none) none
    { name := "alice", color := "#ff0000",
      position := { start_element := 999, start_percent := 0,
                    end_element := 1000, end_percent := 1 },
      password_hash := none } 9).2.1 (by decide)).2

/-- C3: one sweep at instant `now` removes exactly those records whose elapsed
time since `last_heartbeat` exceeds 10 seconds and keeps every other record
unchanged; a record older than 10s is absent from the snapshot after the
sweep; and a record refreshed within every 10-second window survives
arbitrarily many interleaved sweeps. -/
theorem heartbeat_sweep_spec (users : Registry) (now : Nat) (k : String) :
    (sweepRegistry now users k = none ↔
      users k = none ∨ ∃ d, users k = some d ∧ now - d.last_heartbeat > 10) ∧
    (∀ d, users k = some d → now - d.last_heartbeat ≤ 10 →
      sweepRegistry now users k = some d) ∧
    (∀ d, users k = some d → now - d.last_heartbeat > 10 →
      snapshotUsers (sweepRegistry now users) k = none) ∧
    (∀ d (es : List RegistryEvent), users k = some d →
      keptFresh k d.last_heartbeat es = true →
      ∃ d', runRegistry users es k = some d') := by
  refine ⟨⟨fun hnone => ?_, fun hdrop => ?_⟩,
          fun d hd hfresh => sweepRegistry_keep users now k d hd hfresh,
          fun d hd hstale => ?_,
          fun d es hd hkept => runRegistry_survives es users k d hd hkept⟩
  · cases hd : users k with
    | none => exact Or.inl rfl
    | some d =>
        refine Or.inr ⟨d, rfl, ?_⟩
        by_contra hfresh
        rw [sweepRegistry_keep users now k d hd (by omega)] at hnone
        exact Option.noConfusion hnone
  · rcases hdrop with hnone | ⟨d, hd, hstale⟩
    · simp [sweepRegistry, hnone]
    · exact sweepRegistry_drop users now k d hd hstale
  · simp [snapshotUsers, sweepRegistry_drop users now k d hd hstale]

/-- C3 witness: on a concrete one-record registry ("alice", heartbeat at 0), a
sweep at 20 removes the record and it is gone from the snapshot, a sweep at 5
keeps it, and across the event run [sweep 9, refresh at 12, sweep 20] the
refreshed record survives. -/
theorem heartbeat_sweep_spec_witness :
    sweepRegistry 5
      (fun k => if k = "alice" then
        some { user := { name := "alice", color := "#ff0000",
                         position := { start_element := 0, start_percent := 0,
                                       end_element := 0, end_percent := 1 } },
               last_heartbeat := 0 }
      else none) "alice" =
      some { user := { name := "alice", color := "#ff0000",
                       position := { start_element := 0, start_percent := 0,
                                     end_element := 0, end_percent := 1 } },
             last_heartbeat := 0 } ∧
    snapshotUsers (sweepRegistry 20
      (fun k => if k = "alice" then
        some { user := { name := "alice", color := "#ff0000",
                         position := { start_element := 0, start_percent := 0,
                                       end_element := 0, end_percent := 1 } },
               last_heartbeat := 0 }
      else none)) "alice" = none ∧
    (∃ d', runRegistry
      (fun k => if k = "alice" then
        some { user := { name := "alice", color := "#ff0000",
                         position := { start_element := 0, start_percent := 0,
                                       end_element := 0, end_percent := 1 } },
               last_heartbeat := 0 }
      else none)
      [RegistryEvent.sweep 9,
       RegistryEvent.refresh
         { name := "alice", color := "#ff0000",
           position := { start_element := 3, start_percent := 0,
                         end_element := 4, end_percent := 1 },
           password_hash := none } 12,
       RegistryEvent.sweep 20] "alice" = some d') := by
  have h5 := heartbeat_sweep_spec
    (fun k => if k = "alice" then
      some { user := { name := "alice", color := "#ff0000",
                       position := { start_element := 0, start_percent := 0,
                                     end_element := 0, end_percent := 1 } },
             last_heartbeat := 0 }
    else none) 5 "alice"
  have h20 := heartbeat_sweep_spec
    (fun k => if k = "alice" then
      some { user := { name := "alice", color := "#ff0000",
                       position := { start_element := 0, start_percent := 0,
                                     end_element := 0, end_percent := 1 } },
             last_heartbeat := 0 }
    else none) 20 "alice"
  refine ⟨h5.2.1
      { user := { name := "alice", color := "#ff0000",
                  position := { start_element := 0, start_percent := 0,
                                end_element := 0, end_percent := 1 } },
        last_heartbeat := 0 } (by decide) (by decide),
    h20.2.2.1
      { user := { name := "alice", color := "#ff0000",
                  position := { start_element := 0, start_percent := 0,
                                end_element := 0, end_percent := 1 } },
        last_heartbeat := 0 } (by decide) (by decide), ?_⟩
  exact h5.2.2.2
    { user := { name := "alice", color := "#ff0000",
                position := { start_element := 0, start_percent := 0,
                              end_element := 0, end_percent := 1 } },
      last_heartbeat := 0 }
    [RegistryEvent.sweep 9,
     RegistryEvent.refresh
       { name := "alice", color := "#ff0000",
         position := { start_element := 3, start_percent := 0,
                       end_element := 4, end_percent := 1 },
         password_hash := none } 12,
     RegistryEvent.sweep 20] (by decide) (by decide)

theorem layoutFrom_length (measure : MeasureText) (width : ℚ) (font : String)
    (size : ℚ) (ps : ℚ) :
    ∀ (elements : List DocumentElement) (y : ℚ),
      (layoutFrom measure width font size ps elements y).length =
        elements.length := by
  intro elements
  induction elements with
  | nil => intro y; rfl
  | cons a rest ih =>
      intro y
      simp only [layoutFrom, List.length_cons, ih]

theorem layoutFrom_getElem? (measure : MeasureText) (width : ℚ) (font : String)
    (size : ℚ) (ps : ℚ) :
    ∀ (elements : List DocumentElement) (y : ℚ) (i : Nat) (e : DocumentElement),
      elements[i]? = some e →
      (layoutFrom measure width font size ps elements y)[i]? =
        some { text := displayText e,
               y_position := y + ((elements.take i).map (fun a =>
                 measure width font size (displayText a) +
                   spacingOf ps a)).sum,
               height := measure width font size (displayText e) } := by
  intro elements
  induction elements with
  | nil => intro y i e h; simp at h
  | cons a rest ih =>
      intro y i e h
      cases i with
      | zero =>
          simp only [List.getElem?_cons_zero, Option.some.injEq] at h
          subst h
          simp [layoutFrom]
      | succ i' =>
          simp only [List.getElem?_cons_succ] at h
          simp only [layoutFrom, List.getElem?_cons_succ]
          rw [ih _ i' e h]
          simp only [Option.some.injEq, LaidOutElement.mk.injEq,
            List.take_succ_cons, List.map_cons, List.sum_cons,
            eq_self_iff_true, true_and, and_true]
          ring

/-- C2: the layout pass produces one `LaidOutElement` per `DocumentElement` at
the same ordinal index; its display text is the heading content behind a
visible level marker for headings, a placeholder carrying the image id for
images, and the raw content for text (`displayText`); its height is the
measured height of that text under the given width/font/size; and its
`y_position` is the sum over all earlier elements of measured height plus
spacing, where the spacing is `paragraphSpacing * 2` after a heading and
`paragraphSpacing` otherwise — in particular the first element sits at 0. -/
theorem layout_pass_spec (measure : MeasureText) (width : ℚ) (font : String)
    (size : ℚ) (paragraphSpacing : ℚ) (elements : List DocumentElement)
    (i : Nat) (e : DocumentElement) (he : elements[i]? = some e) :
    (layout measure width font size paragraphSpacing elements).length =
      elements.length ∧
    (layout measure width font size paragraphSpacing elements)[i]? =
      some { text := displayText e,
             y_position := ((elements.take i).map (fun a =>
               measure width font size (displayText a) +
                 spacingOf paragraphSpacing a)).sum,
             height := measure width font size (displayText e) } := by
  constructor
  · exact layoutFrom_length measure width font size paragraphSpacing elements 0
  · rw [layout, layoutFrom_getElem? measure width font size paragraphSpacing
      elements 0 i e he]
    simp

/-- C2 witness: a concrete three-element document (heading, text, image) laid
out under the character-count measure `fun _ _ _ t => t.length`: three output
elements, and the third (the image placeholder) sits below the heading (its
text measured as the prefixed string, followed by doubled spacing) and the
text element (plain spacing). -/
theorem layout_pass_spec_witness :
    (layout (fun _ _ _ t => (t.length : ℚ)) 600 "Japanese" 18 10
      [DocumentElement.heading "Ch" 1, DocumentElement.text "hello",
       DocumentElement.image "pic.png" "u"]).length = 3 ∧
    (layout (fun _ _ _ t => (t.length : ℚ)) 600 "Japanese" 18 10
      [DocumentElement.heading "Ch" 1, DocumentElement.text "hello",
       DocumentElement.image "pic.png" "u"])[2]? =
      some { text := displayText (DocumentElement.image "pic.png" "u"),
             y_position := (([DocumentElement.heading "Ch" 1,
               DocumentElement.text "hello",
               DocumentElement.image "pic.png" "u"].take 2).map (fun a =>
                 (fun (_ : ℚ) (_ : String) (_ : ℚ) (t : String) =>
                   (t.length : ℚ)) 600 "Japanese" 18 (displayText a) +
                 spacingOf 10 a)).sum,
             height := ((displayText
               (DocumentElement.image "pic.png" "u")).length : ℚ) } :=
  layout_pass_spec (fun _ _ _ t => (t.length : ℚ)) 600 "Japanese" 18 10
    [DocumentElement.heading "Ch" 1, DocumentElement.text "hello",
     DocumentElement.image "pic.png" "u"] 2
    (DocumentElement.image "pic.png" "u") rfl

theorem findIdx?_some_spec {α : Type} (p : α → Bool) :
    ∀ (l : List α) (i : Nat), l.findIdx? p = some i →
      ∃ e, l[i]? = some e ∧ p e = true ∧
        ∀ j, j < i → ∀ e', l[j]? = some e' → p e' = false := by
  intro l
  induction l with
  | nil => intro i h; rw [List.findIdx?_nil] at h; exact Option.noConfusion h
  | cons a rest ih =>
      intro i h
      rw [List.findIdx?_cons] at h
      by_cases hpa : p a = true
      · rw [if_pos hpa, Option.some.injEq] at h
        subst h
        exact ⟨a, List.getElem?_cons_zero, hpa,
          fun j hj => absurd hj (Nat.not_lt_zero j)⟩
      · rw [if_neg hpa, List.findIdx?_succ] at h
        cases hr : rest.findIdx? p with
        | none => rw [hr] at h; exact Option.noConfusion h
        | some i' =>
            rw [hr] at h
            rw [Option.map_some'] at h
            rw [Option.some.injEq] at h
            subst h
            obtain ⟨e, he, hpe, hbefore⟩ := ih i' hr
            refine ⟨e, by rw [List.getElem?_cons_succ]; exact he, hpe,
              fun j hj e' he' => ?_⟩
            cases j with
            | zero =>
                simp only [List.getElem?_cons_zero, Option.some.injEq] at he'
                subst he'
                exact Bool.eq_false_iff.mpr hpa
            | succ j' =>
                rw [List.getElem?_cons_succ] at he'
                exact hbefore j' (Nat.lt_of_succ_lt_succ hj) e' he'

/-- C4: the captured anchor is the index of the first old-layout element with
`y_position + height > viewportCenterY` (and there is no anchor exactly when
no element qualifies); after the new layout is produced, an anchor index
within its bounds sets the scroll offset to
`max(0, newLayout[anchorIndex].y_position − viewportHeight/2)`, while an
out-of-bounds anchor index is bound-checked and leaves the scroll offset
unchanged. -/
theorem anchor_capture_restore_spec (oldLayout newLayout : List LaidOutElement)
    (center_y viewport_height scroll_offset : ℚ) (i : Nat) :
    (captureAnchor oldLayout center_y = some i →
      ∃ e, oldLayout[i]? = some e ∧ center_y < e.y_position + e.height ∧
        ∀ j, j < i → ∀ e', oldLayout[j]? = some e' →
          ¬ center_y < e'.y_position + e'.height) ∧
    (captureAnchor oldLayout center_y = none ↔
      ∀ e ∈ oldLayout, ¬ center_y < e.y_position + e.height) ∧
    (∀ e, newLayout[i]? = some e →
      restoreScroll newLayout (some i) viewport_height scroll_offset =
        max 0 (e.y_position - viewport_height / 2)) ∧
    (newLayout[i]? = none →
      restoreScroll newLayout (some i) viewport_height scroll_offset =
        scroll_offset) := by
  refine ⟨fun hsome => ?_, ?_, fun e he => ?_, fun hnone => ?_⟩
  · rw [captureAnchor] at hsome
    obtain ⟨e, he, hpe, hbefore⟩ :=
      findIdx?_some_spec (fun e => decide (center_y < e.y_position + e.height))
        oldLayout i hsome
    refine ⟨e, he, by simpa using hpe, fun j hj e' he' => ?_⟩
    simpa using hbefore j hj e' he'
  · rw [captureAnchor, List.findIdx?_eq_none_iff]
    constructor
    · intro hall e hmem
      simpa using hall e hmem
    · intro hall e hmem
      simpa using hall e hmem
  · rw [restoreScroll, he, max_comm]
  · rw [restoreScroll, hnone]

/-- C4 witness: on an old layout of two boxes ([0,10) and [12,30)), center 11
captures anchor index 1 (the first element whose bottom edge exceeds 11); on a
new two-element layout the in-bounds anchor 1 recenters the scroll to
`max(0, 100 - 40/2)`; and on a shrunken one-element layout the out-of-bounds
anchor 1 leaves the scroll offset at 7. -/
theorem anchor_capture_restore_spec_witness :
    (∃ e, [LaidOutElement.mk "a" 0 10, LaidOutElement.mk "b" 12 18][1]? =
        some e ∧ (11:ℚ) < e.y_position + e.height ∧
        ∀ j, j < 1 → ∀ e',
          [LaidOutElement.mk "a" 0 10, LaidOutElement.mk "b" 12 18][j]? =
            some e' → ¬ (11:ℚ) < e'.y_position + e'.height) ∧
    restoreScroll [LaidOutElement.mk "a" 0 10, LaidOutElement.mk "b" 100 18]
        (some 1) 40 7 = max 0 ((100:ℚ) - 40 / 2) ∧
    restoreScroll [LaidOutElement.mk "a" 0 10] (some 1) 40 7 = 7 := by
  have h := anchor_capture_restore_spec
    [LaidOutElement.mk "a" 0 10, LaidOutElement.mk "b" 12 18]
    [LaidOutElement.mk "a" 0 10, LaidOutElement.mk "b" 100 18] 11 40 7 1
  have h' := anchor_capture_restore_spec
    [LaidOutElement.mk "a" 0 10, LaidOutElement.mk "b" 12 18]
    [LaidOutElement.mk "a" 0 10] 11 40 7 1
  refine ⟨h.1 ?_, h.2.2.1 (LaidOutElement.mk "b" 100 18) rfl, h'.2.2.2 rfl⟩
  simp only [captureAnchor, List.findIdx?_cons, List.findIdx?_nil,
    List.findIdx?_succ]
  norm_num

/-- C5: on a tick with a previously sent range and a previous push instant, a
position push is emitted if and only if the computed visible range differs
from the last-sent range or at least 250 ms have elapsed since the last push;
in particular, with a fixed range no second push occurs before 250 ms elapse,
and with a changed range a push occurs immediately regardless of elapsed
time. -/
theorem push_debounce_spec (s : SyncState) (last : Nat × Nat) (t : Nat)
    (current : Nat × Nat) (now : Nat)
    (hsent : s.last_sent_position = some last)
    (hupd : s.last_position_update = some t) :
    (shouldPush s current now = true ↔ (current ≠ last ∨ 250 ≤ now - t)) ∧
    (current = last → now - t < 250 → shouldPush s current now = false) ∧
    (current ≠ last → shouldPush s current now = true) := by
  have hchar : shouldPush s current now = true ↔ (current ≠ last ∨ 250 ≤ now - t) := by
    rw [shouldPush, position_changed, time_elapsed, hsent, hupd,
      Bool.or_eq_true, decide_eq_true_eq, decide_eq_true_eq]
    constructor
    · rintro (hne | hel)
      · exact Or.inl (fun hc => hne hc.symm)
      · exact Or.inr hel
    · rintro (hne | hel)
      · exact Or.inl (fun hc => hne hc.symm)
      · exact Or.inr hel
  refine ⟨hchar, fun heq hlt => ?_, fun hne => hchar.mpr (Or.inl hne)⟩
  rw [Bool.eq_false_iff]
  intro htrue
  rcases hchar.mp htrue with hne | hel
  · exact hne heq
  · omega

/-- C5 witness: with last-sent range (3, 7) pushed at t = 1000, at now = 1100
the unchanged range (3, 7) is not pushed again (only 100 ms elapsed), while
the changed range (4, 8) is pushed immediately. -/
theorem push_debounce_spec_witness :
    shouldPush { last_sent_position := some (3, 7),
                 last_position_update := some 1000,
                 other_users := fun _ => none,
                 last_users_fetch := none } (3, 7) 1100 = false ∧
    shouldPush { last_sent_position := some (3, 7),
                 last_position_update := some 1000,
                 other_users := fun _ => none,
                 last_users_fetch := none } (4, 8) 1100 = true := by
  have h1 := push_debounce_spec
    { last_sent_position := some (3, 7), last_position_update := some 1000,
      other_users := fun _ => none, last_users_fetch := none }
    (3, 7) 1000 (3, 7) 1100 rfl rfl
  have h2 := push_debounce_spec
    { last_sent_position := some (3, 7), last_position_update := some 1000,
      other_users := fun _ => none, last_users_fetch := none }
    (3, 7) 1000 (4, 8) 1100 rfl rfl
  exact ⟨h1.2.1 rfl (by omega), h2.2.2 (by decide)⟩

/-- C8: the peer snapshot is pulled on its own cadence independent of the push
outcome — the push block changes neither the fetch stamp (hence the fetch
decision) nor the cached peer map — and a failed pull leaves the previously
cached peer set and fetch stamp exactly as they were (the cached map is
replaced, and the stamp advanced, only on a successful pull), so the tick
simply retries next cycle. -/
theorem pull_resilience_spec (s : SyncState) (current : Nat × Nat) (now : Nat)
    (users : String → Option ConnectedUser) :
    ((pushStep s current now).last_users_fetch = s.last_users_fetch ∧
     (pushStep s current now).other_users = s.other_users ∧
     should_fetch_users (pushStep s current now) now =
       should_fetch_users s now) ∧
    ((syncTick s current now (Except.error ())).other_users = s.other_users ∧
     (syncTick s current now (Except.error ())).last_users_fetch =
       s.last_users_fetch) ∧
    (should_fetch_users s now = true →
      (syncTick s current now (Except.ok users)).other_users = users ∧
      (syncTick s current now (Except.ok users)).last_users_fetch =
        some now) := by
  have hfetch : (pushStep s current now).last_users_fetch =
      s.last_users_fetch := by
    rw [pushStep]; split <;> rfl
  have husers : (pushStep s current now).other_users = s.other_users := by
    rw [pushStep]; split <;> rfl
  have hdec : should_fetch_users (pushStep s current now) now =
      should_fetch_users s now := by
    rw [should_fetch_users, should_fetch_users, hfetch]
  refine ⟨⟨hfetch, husers, hdec⟩, ⟨?_, ?_⟩, fun hshould => ⟨?_, ?_⟩⟩
  · rw [syncTick, pullStep]
    split
    · exact husers
    · exact husers
  · rw [syncTick, pullStep]
    split
    · exact hfetch
    · exact hfetch
  · rw [syncTick, pullStep, if_pos (hdec.trans hshould)]
  · rw [syncTick, pullStep, if_pos (hdec.trans hshould)]

/-- C8 witness: with peers cached as {"bob"} and last fetch at t = 0, a tick
at now = 300 with a failed pull keeps "bob" cached and the fetch stamp at 0,
while a successful pull delivering {"carol"} replaces the cache. -/
theorem pull_resilience_spec_witness :
    (syncTick { last_sent_position := none, last_position_update := none,
                other_users := fun k => if k = "bob" then
                  some { name := "bob", color := "#00ff00",
                         position := { start_element := 1, start_percent := 0,
                                       end_element := 2, end_percent := 1 } }
                else none,
                last_users_fetch := some 0 } (0, 0) 300
        (Except.error ())).other_users "bob" =
      some { name := "bob", color := "#00ff00",
             position := { start_element := 1, start_percent := 0,
                           end_element := 2, end_percent := 1 } } ∧
    (syncTick { last_sent_position := none, last_position_update := none,
                other_users := fun k => if k = "bob" then
                  some { name := "bob", color := "#00ff00",
                         position := { start_element := 1, start_percent := 0,
                                       end_element := 2, end_percent := 1 } }
                else none,
                last_users_fetch := some 0 } (0, 0) 300
        (Except.error ())).last_users_fetch = some 0 ∧
    (syncTick { last_sent_position := none, last_position_update := none,
                other_users := fun k => if k = "bob" then
                  some { name := "bob", color := "#00ff00",
                         position := { start_element := 1, start_percent := 0,
                                       end_element := 2, end_percent := 1 } }
                else none,
                last_users_fetch := some 0 } (0, 0) 300
        (Except.ok (fun k => if k = "carol" then
          some { name := "carol", color := "#0000ff",
                 position := { start_element := 9, start_percent := 0,
                               end_element := 9, end_percent := 1 } }
        else none))).other_users "bob" = none := by
  have h := pull_resilience_spec
    { last_sent_position := none, last_position_update := none,
      other_users := fun k => if k = "bob" then
        some { name := "bob", color := "#00ff00",
               position := { start_element := 1, start_percent := 0,
                             end_element := 2, end_percent := 1 } }
      else none,
      last_users_fetch := some 0 } (0, 0) 300
    (fun k => if k = "carol" then
      some { name := "carol", color := "#0000ff",
             position := { start_element := 9, start_percent := 0,
                           end_element := 9, end_percent := 1 } }
    else none)
  refine ⟨?_, h.2.1.2, ?_⟩
  · rw [h.2.1.1]; decide
  · rw [(h.2.2 (by decide)).1]; decide

theorem followStep_between (target_scroll current_scroll : ℚ)
    (hnear : ¬ |target_scroll - current_scroll| > 2000) :
    min current_scroll target_scroll ≤ followStep target_scroll current_scroll ∧
    followStep target_scroll current_scroll ≤
      max current_scroll target_scroll := by
  have hunfold : followStep target_scroll current_scroll =
      current_scroll + fsignum (target_scroll - current_scroll) *
        min (if |target_scroll - current_scroll| > 500 then (50:ℚ) else 20)
          |target_scroll - current_scroll| := by
    rw [followStep, if_neg hnear]
  have h0 : 0 ≤ min (if |target_scroll - current_scroll| > 500 then (50:ℚ)
      else 20) |target_scroll - current_scroll| := by
    apply le_min _ (abs_nonneg _)
    split <;> norm_num
  have h1 : min (if |target_scroll - current_scroll| > 500 then (50:ℚ)
        else 20) |target_scroll - current_scroll| ≤
      |target_scroll - current_scroll| := min_le_right _ _
  rw [hunfold]
  rcases lt_or_le (target_scroll - current_scroll) 0 with hneg | hpos
  · have hsg : fsignum (target_scroll - current_scroll) = -1 := by
      rw [fsignum]; exact if_pos hneg
    have habs : |target_scroll - current_scroll| =
        current_scroll - target_scroll := by
      rw [abs_sub_comm]
      exact abs_of_nonneg (by linarith)
    rw [habs] at h0 h1
    rw [hsg, habs,
      min_eq_right (show target_scroll ≤ current_scroll by linarith),
      max_eq_left (show target_scroll ≤ current_scroll by linarith)]
    constructor <;> linarith
  · have hsg : fsignum (target_scroll - current_scroll) = 1 := by
      rw [fsignum]; exact if_neg (not_lt.mpr hpos)
    have habs : |target_scroll - current_scroll| =
        target_scroll - current_scroll := abs_of_nonneg hpos
    rw [habs] at h0 h1
    rw [hsg, habs,
      min_eq_left (show current_scroll ≤ target_scroll by linarith),
      max_eq_right (show current_scroll ≤ target_scroll by linarith)]
    constructor <;> linarith

/-- C6: on a frame with a followed peer cached and its start element resolving
in the current layout, with `targetY` that element's y-position and
`distance = |targetY − currentScroll|`: if `distance > 2000` the scroll
offset is set directly to `targetY`; otherwise it becomes
`currentScroll + sign(targetY − currentScroll) * min(speed, distance)` with
`speed = 50` when `distance > 500` and `20` otherwise, and that step never
overshoots: the new offset stays between the current offset and the
target. -/
theorem follow_frame_spec (laid_out_elements : List LaidOutElement)
    (other_users : String → Option ConnectedUser) (following : String)
    (u : ConnectedUser) (e : LaidOutElement) (scroll : ℚ)
    (hu : other_users following = some u)
    (he : laid_out_elements[u.position.start_element]? = some e) :
    (|e.y_position - scroll| > 2000 →
      followFrame laid_out_elements other_users (some following) scroll =
        e.y_position) ∧
    (¬ |e.y_position - scroll| > 2000 →
      followFrame laid_out_elements other_users (some following) scroll =
        scroll + fsignum (e.y_position - scroll) *
          min (if |e.y_position - scroll| > 500 then (50:ℚ) else 20)
            |e.y_position - scroll| ∧
      min scroll e.y_position ≤
        followFrame laid_out_elements other_users (some following) scroll ∧
      followFrame laid_out_elements other_users (some following) scroll ≤
        max scroll e.y_position) := by
  have hframe : followFrame laid_out_elements other_users (some following)
      scroll = followStep e.y_position scroll := by
    simp only [followFrame, hu, he]
  constructor
  · intro hfar
    rw [hframe, followStep, if_pos hfar]
  · intro hnear
    refine ⟨?_, ?_, ?_⟩
    · rw [hframe, followStep, if_neg hnear]
    · rw [hframe]; exact (followStep_between e.y_position scroll hnear).1
    · rw [hframe]; exact (followStep_between e.y_position scroll hnear).2

/-- C6 witness: following "bob" whose start element sits at y = 3000 from
scroll 0 snaps straight to 3000 (distance > 2000); at y = 600 the step is
+50 (distance > 500); at y = 100 the step is +20, and both stay between the
current offset and the target. -/
theorem follow_frame_spec_witness :
    followFrame [LaidOutElement.mk "x" 3000 10]
      (fun k => if k = "bob" then
        some { name := "bob", color := "#00ff00",
               position := { start_element := 0, start_percent := 0,
                             end_element := 0, end_percent := 1 } }
      else none) (some "bob") 0 = 3000 ∧
    followFrame [LaidOutElement.mk "x" 600 10]
      (fun k => if k = "bob" then
        some { name := "bob", color := "#00ff00",
               position := { start_element := 0, start_percent := 0,
                             end_element := 0, end_percent := 1 } }
      else none) (some "bob") 0 =
      0 + fsignum ((600:ℚ) - 0) * min (if |(600:ℚ) - 0| > 500 then (50:ℚ)
        else 20) |(600:ℚ) - 0| ∧
    followFrame [LaidOutElement.mk "x" 100 10]
      (fun k => if k = "bob" then
        some { name := "bob", color := "#00ff00",
               position := { start_element := 0, start_percent := 0,
                             end_element := 0, end_percent := 1 } }
      else none) (some "bob") 0 =
      0 + fsignum ((100:ℚ) - 0) * min (if |(100:ℚ) - 0| > 500 then (50:ℚ)
        else 20) |(100:ℚ) - 0| := by
  have h3000 := follow_frame_spec [LaidOutElement.mk "x" 3000 10]
    (fun k => if k = "bob" then
      some { name := "bob", color := "#00ff00",
             position := { start_element := 0, start_percent := 0,
                           end_element := 0, end_percent := 1 } }
    else none) "bob"
    { name := "bob", color := "#00ff00",
      position := { start_element := 0, start_percent := 0,
                    end_element := 0, end_percent := 1 } }
    (LaidOutElement.mk "x" 3000 10) 0 (by decide) rfl
  have h600 := follow_frame_spec [LaidOutElement.mk "x" 600 10]
    (fun k => if k = "bob" then
      some { name := "bob", color := "#00ff00",
             position := { start_element := 0, start_percent := 0,
                           end_element := 0, end_percent := 1 } }
    else none) "bob"
    { name := "bob", color := "#00ff00",
      position := { start_element := 0, start_percent := 0,
                    end_element := 0, end_percent := 1 } }
    (LaidOutElement.mk "x" 600 10) 0 (by decide) rfl
  have h100 := follow_frame_spec [LaidOutElement.mk "x" 100 10]
    (fun k => if k = "bob" then
      some { name := "bob", color := "#00ff00",
             position := { start_element := 0, start_percent := 0,
                           end_element := 0, end_percent := 1 } }
    else none) "bob"
    { name := "bob", color := "#00ff00",
      position := { start_element := 0, start_percent := 0,
                    end_element := 0, end_percent := 1 } }
    (LaidOutElement.mk "x" 100 10) 0 (by decide) rfl
  exact ⟨h3000.1 (by norm_num), (h600.2 (by norm_num)).1,
    (h100.2 (by norm_num)).1⟩

/-- C7: every client HTTP GET — the `/health` and `/document` fetches during
connection and the periodic `/positions` pull — carries no `password_hash`
parameter, whatever hash the client computed at login; only the POST
`/update_position` body carries it.  Hence against a server configured with a
secret, the client's `/document` and `/positions` GETs are rejected as
unauthorized. -/
theorem client_get_no_hash_spec (login_hash reader_hash : Option String)
    (user_name user_color : String) (a b : Nat) (h : String)
    (document : List String) (users : Registry) :
    clientHealthRequest.password_hash = none ∧
    (clientDocumentRequest login_hash).password_hash = none ∧
    (clientPositionsRequest reader_hash).password_hash = none ∧
    (clientPositionUpdate user_name user_color reader_hash a b).password_hash =
      reader_hash ∧
    document_handler ⟨document, users, some h⟩
        (clientDocumentRequest login_hash).password_hash =
      Except.error StatusCode.unauthorized ∧
    positions_handler ⟨document, users, some h⟩
        (clientPositionsRequest reader_hash).password_hash =
      Except.error StatusCode.unauthorized := by
  exact ⟨rfl, rfl, rfl, rfl, rfl, rfl⟩

/-- C7 witness: a client that computed hash "cafe" at login still sends its
GETs without it, and a server whose configured secret is that very hash
rejects them. -/
theorem client_get_no_hash_spec_witness :
    (clientDocumentRequest (some "cafe")).password_hash = none ∧
    (clientPositionsRequest (some "cafe")).password_hash = none ∧
    (clientPositionUpdate "alice" "#ff0000" (some "cafe") 3 7).password_hash =
      some "cafe" ∧
    document_handler ⟨["only"], (fun _ => none), some "cafe"⟩
        (clientDocumentRequest (some "cafe")).password_hash =
      Except.error StatusCode.unauthorized ∧
    positions_handler ⟨["only"], (fun _ => none), some "cafe"⟩
        (clientPositionsRequest (some "cafe")).password_hash =
      Except.error StatusCode.unauthorized := by
  have h := client_get_no_hash_spec (some "cafe") (some "cafe") "alice"
    "#ff0000" 3 7 "cafe" ["only"] (fun _ => none)
  exact ⟨h.2.1, h.2.2.1, h.2.2.2.1, h.2.2.2.2.1, h.2.2.2.2.2⟩
